import Mathlib

/-
Verification of the Streamlink_CLI scripts against their specification.

The Python sources are shallowly embedded below.  Byte counts are Nat,
player time stamps and playback speeds are rationals, Python exceptions
are an explicit error type, and the mpv / requests library surface that
the scripts drive is modelled by the small state-passing functions the
spec describes for it (event waits, property writes, HTTP responses).
-/

namespace StreamlinkCli

/-- Python exception kinds raised by the embedded code paths: the scripts
interact with TypeError (caught in two places), IndexError and ValueError
(raised by the silence-skip matcher), and KeyError (raised by the quality
lookup in the stream mapping). -/
inductive PyErr where
  | typeError
  | indexError
  | valueError
  | keyError
deriving DecidableEq

/-- Accumulator pass behind `pySplit`: walks the character list, collecting
the current token in reverse in `acc`, closing a token at each whitespace
run, exactly like the whitespace mode of the Python `str.split()` method. -/
def splitWsAux : List Char → List Char → List (List Char)
  | [], acc => if acc.isEmpty then [] else [acc.reverse]
  | c :: rest, acc =>
    if c.isWhitespace then
      if acc.isEmpty then splitWsAux rest [] else acc.reverse :: splitWsAux rest []
    else splitWsAux rest (c :: acc)

/-- Embeds the Python `str.split()` call (no argument): split on runs of
whitespace, discarding empty tokens.  Used by `check` below for
`evt["event"]["text"].split()`. -/
def pySplit (s : String) : List String :=
  (splitWsAux s.data []).map String.mk

/-- Decimal digits to a natural number, most significant first. -/
def digitsToNat (ds : List Char) : Nat :=
  ds.foldl (fun a c => a * 10 + (c.toNat - 48)) 0

/-- Embeds the Python `float(tok)` conversion on the plain decimal fragment
the scripts exercise: an optional sign, an integer part and an optional
fractional part after a dot, with at least one digit overall.  Returns
`none` where `float` raises ValueError.  (Exponent, infinity and nan forms
of the Python literal syntax are outside the fragment any log token here
takes.)  The value is exact, as a rational. -/
def pyFloat (s : String) : Option ℚ :=
  let cs := s.data
  let signAndRest : Bool × List Char :=
    match cs with
    | '-' :: rest => (true, rest)
    | '+' :: rest => (false, rest)
    | rest => (false, rest)
  let neg := signAndRest.1
  let cs1 := signAndRest.2
  let ip := cs1.takeWhile Char.isDigit
  let rest := cs1.dropWhile Char.isDigit
  let core : Option ℚ :=
    match rest with
    | [] => if ip.isEmpty then none else some ((digitsToNat ip : ℚ))
    | '.' :: fs =>
      let fp := fs.takeWhile Char.isDigit
      let rest2 := fs.dropWhile Char.isDigit
      if rest2.isEmpty ∧ ¬(ip.isEmpty ∧ fp.isEmpty) then
        some ((digitsToNat ip : ℚ) + (digitsToNat fp : ℚ) / ((10 : ℚ) ^ fp.length))
      else none
    | _ => none
  core.map (fun q => if neg then -q else q)

/-- Embeds `check` from `skip_silence` (src/src/streamlink_cli.py lines
40-44): split the log text, and when the token `"silence_end:"` occurs
anywhere among the tokens return `float(toks[2])`, else fall through to
`None`.  The Python subscript `toks[2]` raises IndexError when fewer than
three tokens exist, and `float` raises ValueError on an unparseable token;
both surface here as `Except.error`. -/
def check (line : String) : Except PyErr (Option ℚ) :=
  let toks := pySplit line
  if "silence_end:" ∈ toks then
    match toks.get? 2 with
    | none => Except.error PyErr.indexError
    | some t =>
      match pyFloat t with
      | none => Except.error PyErr.valueError
      | some x => Except.ok (some x)
  else Except.ok none

/-- Models `PLAYER.wait_for_event("log_message", cond=check)` over the
finite stream of log-line texts the player emits: the wait delivers the
first truthy value returned by the condition (a nonzero float; a `None`
or `0.0` result keeps waiting), an exception raised inside the condition
is re-raised to the waiter, and when the stream ends with no match the
wait yields the `none` sentinel (the library returns `None` once the
player shuts down, as the spec describes). -/
def waitForEvent : List String → Except PyErr (Option ℚ)
  | [] => Except.ok none
  | l :: rest =>
    match check l with
    | Except.error e => Except.error e
    | Except.ok (some x) => if x ≠ 0 then Except.ok (some x) else waitForEvent rest
    | Except.ok none => waitForEvent rest

/-- Mutable mpv properties that `skip_silence` and the observers touch:
log verbosity, audio filter string, playback speed and playback
position. -/
structure PlayerState where
  loglevel : String
  af : String
  speed : ℚ
  time_pos : Option ℚ

/-- Player state before `skip_silence` runs: default verbosity, no audio
filter, normal speed, nothing played yet. -/
def initState : PlayerState :=
  { loglevel := "info", af := "", speed := 1, time_pos := none }

/-- The transient audio filter string `skip_silence` attaches
(src/src/streamlink_cli.py line 37). -/
def silenceFilter : String := "lavfi=[silencedetect=n=-20dB:d=1]"

/-- Models the mpv property write `PLAYER.time_pos = v`: writing a float
seeks there, while writing `None` (the value the wait yields when no
matching line arrived before stream end) raises TypeError, the type
mismatch the spec describes for this path. -/
def setTimePos (st : PlayerState) (v : Option ℚ) : Except PyErr PlayerState :=
  match v with
  | none => Except.error PyErr.typeError
  | some x => Except.ok { st with time_pos := some x }

/-- Embeds `skip_silence` (src/src/streamlink_cli.py lines 32-52) run
against the given stream of log-line texts: set verbosity to "error",
attach the silencedetect filter, set speed to 100, then
`try: PLAYER.time_pos = PLAYER.wait_for_event(...) except TypeError: pass`,
and finally restore speed 1 and clear the filter.  The second component
is the exception, if any, that escapes the function: only TypeError is
caught, so any other exception aborts it before the restore lines run. -/
def skip_silence (lines : List String) (st : PlayerState) : PlayerState × Option PyErr :=
  let st1 := { st with loglevel := "error", af := silenceFilter, speed := 100 }
  let tryResult : PlayerState × Option PyErr :=
    match waitForEvent lines with
    | Except.error e => if e = PyErr.typeError then (st1, none) else (st1, some e)
    | Except.ok v =>
      match setTimePos st1 v with
      | Except.error e => if e = PyErr.typeError then (st1, none) else (st1, some e)
      | Except.ok st2 => (st2, none)
  match tryResult with
  | (st2, none) => ({ st2 with speed := 1, af := "" }, none)
  | (st2, some e) => (st2, some e)

/-- The fixed block size of the producer loop,
`file.read(1024*1024)` (src/src/streamlink_cli.py line 61). -/
def blockSize : Nat := 1024 * 1024

/-- Embeds the read loop of `reader` (src/src/streamlink_cli.py lines
59-61) over a finite byte source with `N` bytes remaining: each
`file.read(B)` returns `min B N` bytes, the loop yields that block and
continues on the rest, and the sequence of blocks delivered to the player
ends with the first zero-length read, the end-of-stream signal at which
the player stops pulling.  Only block sizes are tracked. -/
def readerBlocks (B N : Nat) : List Nat :=
  if _h : 0 < min B N then
    min B N :: readerBlocks B (N - min B N)
  else [0]
termination_by N
decreasing_by
  have h1 : min B N ≤ N := Nat.min_le_right B N
  omega

/-- Embeds the open step of `reader` (src/src/streamlink_cli.py lines
55-64): `STREAM[quality]` on the resolver mapping raises KeyError when
the quality label is absent; the handler prints
`"<streamer> is not live"` and then re-raises the KeyError (`raise e`).
The result pairs the printed lines with either the opened handle or the
escaping exception. -/
def readerOpen (streams : String → Option Nat) (streamer : String) (quality : String) :
    List String × Except PyErr Nat :=
  match streams quality with
  | some h => ([], Except.ok h)
  | none => ([streamer ++ " is not live"], Except.error PyErr.keyError)

/-- An HTTP response as the `requests` library presents it to the scripts:
final url, status code, reason phrase, and the parsed JSON body, which for
every endpoint touched here is flat enough to model as a string-to-string
association list. -/
structure HttpResponse where
  url : String
  status : Nat
  reason : String
  body : List (String × String)

/-- An HTTP request as issued by the scripts: url, headers and form body. -/
structure HttpRequest where
  url : String
  headers : List (String × String)
  body : List (String × String)

/-- The error raised by `response.raise_for_status()`: a
`requests.HTTPError` carrying the formatted message and the response
object (from which the status code is recoverable). -/
structure HTTPError where
  message : String
  response : HttpResponse

/-- Embeds the message construction inside `requests.Response.raise_for_status`:
a 4xx status yields `"<status> Client Error: <reason> for url: <url>"`, a
5xx status the Server Error variant, and every other status yields no
error.  The response body is never consulted. -/
def http_error_msg (r : HttpResponse) : Option String :=
  if 400 ≤ r.status ∧ r.status ≤ 499 then
    some (Nat.repr r.status ++ " Client Error: " ++ r.reason ++ " for url: " ++ r.url)
  else if 500 ≤ r.status ∧ r.status ≤ 599 then
    some (Nat.repr r.status ++ " Server Error: " ++ r.reason ++ " for url: " ++ r.url)
  else none

/-- Embeds `response.raise_for_status()` as called by `get_access_token`
and `api_request` (src/src/twitch.py lines 192 and 206). -/
def raise_for_status (r : HttpResponse) : Except HTTPError Unit :=
  match http_error_msg r with
  | some m => Except.error { message := m, response := r }
  | none => Except.ok ()

/-- The single POST that `get_access_token` sends (src/src/twitch.py lines
184-191): the fixed token endpoint with the client credentials grant body. -/
def tokenRequest (client_id client_secret : String) : HttpRequest :=
  { url := "https://id.twitch.tv/oauth2/token"
    headers := []
    body := [("client_id", client_id), ("client_secret", client_secret),
             ("grant_type", "client_credentials")] }

/-- Embeds `get_access_token` (src/src/twitch.py lines 180-193) against an
abstract transport `server` mapping each request to its response: build
the body, POST once, `raise_for_status`, return the parsed JSON body.
The first component lists the requests issued, so that the absence of
retries is visible in the result. -/
def get_access_token (server : HttpRequest → HttpResponse)
    (client_id client_secret : String) :
    List HttpRequest × Except HTTPError (List (String × String)) :=
  let req := tokenRequest client_id client_secret
  let r := server req
  ([req],
    match raise_for_status r with
    | Except.error e => Except.error e
    | Except.ok _ => Except.ok r.body)

/-- Embeds the Python `str.strip()` call: drop whitespace at both ends. -/
def pyStrip (s : String) : String :=
  String.mk (((s.data.dropWhile Char.isWhitespace).reverse.dropWhile Char.isWhitespace).reverse)

/-- The GET request that `api_request` issues (src/src/twitch.py lines
200-205): `f"{url}?{query}".strip()` with the Client-ID and Bearer
headers. -/
def apiRequestReq (client_id access_token url query : String) : HttpRequest :=
  { url := pyStrip (url ++ "?" ++ query)
    headers := [("Client-ID", client_id),
                ("Authorization", "Bearer " ++ access_token)]
    body := [] }

/-- Embeds `api_request` (src/src/twitch.py lines 196-207) against an
abstract transport: issue the GET, `raise_for_status`, return the parsed
JSON body. -/
def api_request (server : HttpRequest → HttpResponse)
    (client_id access_token url query : String) :
    Except HTTPError (List (String × String)) :=
  let r := server (apiRequestReq client_id access_token url query)
  match raise_for_status r with
  | Except.error e => Except.error e
  | Except.ok _ => Except.ok r.body

/-- Embeds the Python dictionary subscript `d[k]` on a JSON object:
KeyError when the key is absent. -/
def dictGet (d : List (String × String)) (k : String) : Except PyErr String :=
  match List.lookup k d with
  | some v => Except.ok v
  | none => Except.error PyErr.keyError

/-- Embeds `print_now_playing` (src/src/twitch.py lines 210-220) as a
function from the streamer name and the `data` array of the response (each
element a JSON object) to the printed line: exactly one element formats
`"<streamer> - [<game>] : <title>"` from its `game_name` and `title`
fields, any other length formats `"<streamer> is not live"`.  The
`started_at` field is never read (the read is commented out in the
source), so an element without it cannot raise. -/
def print_now_playing (streamer : String) (arrayData : List (List (String × String))) :
    Except PyErr String :=
  if arrayData.length = 1 then
    match arrayData with
    | e :: _ =>
      match dictGet e "game_name" with
      | Except.error er => Except.error er
      | Except.ok game =>
        match dictGet e "title" with
        | Except.error er => Except.error er
        | Except.ok title =>
          Except.ok (streamer ++ " - [" ++ game ++ "] : " ++ title)
    | [] => Except.error PyErr.indexError
  else Except.ok (streamer ++ " is not live")

/-- Rounds a rational to the nearest integer, ties to even: the rounding
CPython applies when formatting with two decimals. -/
def roundHalfEven (q : ℚ) : ℤ :=
  let f := Rat.floor q
  let r := q - (f : ℚ)
  if r < 1/2 then f
  else if 1/2 < r then f + 1
  else if f % 2 = 0 then f else f + 1

/-- Renders a natural below 100 as exactly two decimal digits. -/
def twoDigitStr (n : Nat) : String :=
  String.mk [Nat.digitChar (n / 10 % 10), Nat.digitChar (n % 10)]

/-- The fractional part (two digits) of the two-decimal rendering of `q`. -/
def fmt2Frac (q : ℚ) : String :=
  twoDigitStr ((roundHalfEven (q * 100)).natAbs % 100)

/-- The integer part, with sign, of the two-decimal rendering of `q`. -/
def fmt2Whole (q : ℚ) : String :=
  (if roundHalfEven (q * 100) < 0 then "-" else "")
    ++ Nat.repr ((roundHalfEven (q * 100)).natAbs / 100)

/-- Embeds the Python format expression `f"{value:.2f}"` on an exact
rational value: round the value to hundredths (ties to even) and render
with exactly two digits after the point. -/
def fmt2 (q : ℚ) : String :=
  fmt2Whole q ++ "." ++ fmt2Frac q

/-- Embeds the format step of `time_observer`: formatting `None` with
`:.2f` raises TypeError, a numeric value formats to two decimals. -/
def pyFormat2f (v : Option ℚ) : Except PyErr String :=
  match v with
  | none => Except.error PyErr.typeError
  | some q => Except.ok (fmt2 q)

/-- Embeds `time_observer` (src/src/streamlink_cli.py lines 68-77) applied
to one observed value of the time-pos property: the printed lines paired
with any escaping exception.  The `try` block prints
`f"Now playing at {value:.2f}s"` and `except TypeError: pass` swallows the
failure on the `None` value. -/
def time_observer (value : Option ℚ) : List String × Option PyErr :=
  match pyFormat2f value with
  | Except.ok s => (["Now playing at " ++ s ++ "s"], none)
  | Except.error e => if e = PyErr.typeError then ([], none) else ([], some e)

/-- A demonstration token-endpoint transport for concrete runs: the secret
"good" is accepted with a 200 response carrying an access token, anything
else is refused with 403. -/
def demoTokenServer (req : HttpRequest) : HttpResponse :=
  if List.lookup "client_secret" req.body = some "good" then
    { url := req.url, status := 200, reason := "OK"
      body := [("access_token", "abc123"), ("expires_in", "5011271"),
               ("token_type", "bearer")] }
  else
    { url := req.url, status := 403, reason := "Forbidden"
      body := [("message", "invalid client secret")] }

/-- A demonstration metadata transport for concrete runs: every query is
answered 404 with a JSON body carrying a message field. -/
def offlineServer (req : HttpRequest) : HttpResponse :=
  { url := req.url, status := 404, reason := "Not Found"
    body := [("message", "stream not found")] }

/-- The rational value `check` parses out of the token "12.50", in the raw
shape `pyFloat` produces it. -/
def skipVal : ℚ :=
  (digitsToNat ['1', '2'] : ℚ) + (digitsToNat ['5', '0'] : ℚ) / (10 : ℚ) ^ 2

/-- The message of the error carried by a failed result, if any. -/
def errMessage {α : Type} : Except HTTPError α → Option String
  | Except.error e => some e.message
  | Except.ok _ => none

/-- The response status of the error carried by a failed result, if any. -/
def errStatus {α : Type} : Except HTTPError α → Option Nat
  | Except.error e => some e.response.status
  | Except.ok _ => none

/-- A line without the token `"silence_end:"` is a clean non-match for the
silence-skip condition. -/
theorem check_of_not_mem {l : String} (h : "silence_end:" ∉ pySplit l) :
    check l = Except.ok none := by
  simp [check, h]

/-- When every line is a clean non-match, the event wait runs to the end
of the stream and yields the `none` sentinel. -/
theorem waitForEvent_of_all_none {lines : List String}
    (h : ∀ l ∈ lines, check l = Except.ok none) :
    waitForEvent lines = Except.ok none := by
  induction lines with
  | nil => rfl
  | cons l rest ih =>
    rw [waitForEvent, h l (List.mem_cons_self l rest)]
    exact ih (fun l2 hl2 => h l2 (List.mem_cons_of_mem l hl2))

/-- When the lines before `l` are clean non-matches and the condition
raises on `l`, the exception is what the event wait delivers. -/
theorem waitForEvent_append_error {pre : List String} {l : String}
    (rest : List String) {e : PyErr}
    (hpre : ∀ l2 ∈ pre, check l2 = Except.ok none)
    (hl : check l = Except.error e) :
    waitForEvent (pre ++ l :: rest) = Except.error e := by
  induction pre with
  | nil => rw [List.nil_append, waitForEvent, hl]
  | cons p ps ih =>
    rw [List.cons_append, waitForEvent, hpre p (List.mem_cons_self p ps)]
    exact ih (fun l2 hl2 => hpre l2 (List.mem_cons_of_mem p hl2))

/-- Statuses below 400 are not errors for `raise_for_status`. -/
theorem http_error_msg_eq_none {r : HttpResponse} (h : r.status < 400) :
    http_error_msg r = none := by
  rw [http_error_msg, if_neg (by omega), if_neg (by omega)]

/-- Every 4xx or 5xx status produces an error message in
`raise_for_status`. -/
theorem http_error_msg_isSome {r : HttpResponse} (h4 : 400 ≤ r.status)
    (h5 : r.status ≤ 599) : ∃ m, http_error_msg r = some m := by
  by_cases hc : r.status ≤ 499
  · exact ⟨_, by rw [http_error_msg, if_pos ⟨h4, hc⟩]⟩
  · exact ⟨_, by rw [http_error_msg, if_neg (fun hh => hc hh.2), if_pos ⟨by omega, h5⟩]⟩

/-- Closed form of the block sequence the producer loop delivers from a
source of `N` bytes at block size `B`. -/
theorem readerBlocks_closed_form (B : Nat) (hB : 0 < B) (N : Nat) :
    readerBlocks B N
      = List.replicate (N / B) B ++ (if N % B = 0 then [0] else [N % B, 0]) := by
  induction N using Nat.strong_induction_on with
  | _ N ih =>
    rw [readerBlocks]
    rcases Nat.lt_or_ge N B with hNB | hBN
    · rcases Nat.eq_zero_or_pos N with h0 | hpos
      · subst h0
        simp
      · have hmin : min B N = N := Nat.min_eq_right (Nat.le_of_lt hNB)
        rw [hmin, dif_pos hpos, Nat.sub_self, readerBlocks]
        simp [Nat.div_eq_of_lt hNB, Nat.mod_eq_of_lt hNB, hpos.ne']
    · have hmin : min B N = B := Nat.min_eq_left hBN
      rw [hmin, dif_pos hB, ih (N - B) (by omega)]
      rw [Nat.div_eq_sub_div hB hBN, Nat.mod_eq_sub_mod hBN, List.replicate_succ,
        List.cons_append]

/-- C1: over a finite byte source of `N` bytes and the fixed 1 MiB block
size, the producer loop delivers `N / blockSize` non-final blocks of
`blockSize` bytes each, then a final partial block of `N % blockSize`
bytes when `N` is not a multiple of the block size, and ends with the
zero-length read that signals end of stream, after which it delivers
nothing further. -/
theorem reader_block_delivery_spec (N : Nat) :
    readerBlocks blockSize N
      = List.replicate (N / blockSize) blockSize
        ++ (if N % blockSize = 0 then [0] else [N % blockSize, 0]) :=
  readerBlocks_closed_form blockSize (by norm_num [blockSize]) N

/-- C2 counterexample: on the log-line stream whose single line is
literally "silence_end: 12.50", the matcher evaluates `float(toks[2])` on
a two-token list, so IndexError escapes `skip_silence`: the playback
position is never set to 12.5 and the speed is left at 100, not restored
to 1. -/
theorem skip_silence_literal_line_cex :
    (skip_silence ["silence_end: 12.50"] initState).2 = some PyErr.indexError
    ∧ (skip_silence ["silence_end: 12.50"] initState).1.speed = 100
    ∧ (skip_silence ["silence_end: 12.50"] initState).1.time_pos = none
    ∧ ¬ ((skip_silence ["silence_end: 12.50"] initState).1.speed = 1)
    ∧ ¬ ((skip_silence ["silence_end: 12.50"] initState).1.time_pos = some (12.5 : ℚ)) := by
  refine ⟨rfl, rfl, rfl, ?_, ?_⟩
  · show ¬ ((100 : ℚ) = 1)
    norm_num
  · show ¬ ((none : Option ℚ) = some (12.5 : ℚ))
    simp

/-- C2 (amended): for a log-line event stream containing exactly one line
whose whitespace tokens include "silence_end:" with the timestamp as the
third token, as mpv actually emits it, here "lavfi: silence_end: 12.50",
`skip_silence` sets the playback position to 12.5, restores speed 1 and
clears the audio filter, with no escaping exception. -/
theorem skip_silence_match_spec (st : PlayerState) :
    skip_silence ["lavfi: silence_end: 12.50"] st =
      ({ loglevel := "error", af := "", speed := 1, time_pos := some (12.5 : ℚ) }, none) := by
  have hval : skipVal = 12.5 := by
    norm_num [skipVal, show digitsToNat ['1', '2'] = 12 from rfl,
      show digitsToNat ['5', '0'] = 50 from rfl]
  have hc : check "lavfi: silence_end: 12.50" = Except.ok (some skipVal) := rfl
  have hne : skipVal ≠ 0 := by rw [hval]; norm_num
  have hw : waitForEvent ["lavfi: silence_end: 12.50"] = Except.ok (some skipVal) := by
    rw [waitForEvent, hc]
    simp [hne]
  rw [skip_silence, hw]
  simp [setTimePos, hval]

/-- C3 counterexample: with the requested quality absent from the resolver
mapping, the producer open step does print "chan is not live", but it then
re-raises the KeyError (`raise e` in the source), so the raw lookup error
still escapes instead of the run exiting cleanly. -/
theorem reader_missing_quality_cex :
    (readerOpen (fun _ => none) "chan" "best").1 = ["chan is not live"]
    ∧ (readerOpen (fun _ => none) "chan" "best").2 = Except.error PyErr.keyError := by
  exact ⟨rfl, rfl⟩

/-- C3 (amended): when the requested quality label is absent from the
resolver mapping, the producer open step catches the KeyError, prints
"<streamer> is not live", and then re-raises the KeyError, so no stream
handle is produced; the failure is surfaced as the exception, not as a
clean exit. -/
theorem reader_missing_quality_spec (streams : String → Option Nat)
    (streamer quality : String) (h : streams quality = none) :
    readerOpen streams streamer quality
      = ([streamer ++ " is not live"], Except.error PyErr.keyError) := by
  simp [readerOpen, h]

/-- C3 witness: the amended statement at the empty resolver mapping. -/
theorem reader_missing_quality_witness :
    readerOpen (fun _ => none) "somechannel" "best"
      = (["somechannel is not live"], Except.error PyErr.keyError) :=
  reader_missing_quality_spec (fun _ => none) "somechannel" "best" rfl

/-- C4 counterexample: a log line containing the token "silence_end:"
whose third token is not a parseable number is not treated as "no match":
the matcher raises ValueError and the exception escapes `skip_silence`,
taking the wait down rather than being ignored. -/
theorem check_malformed_cex :
    check "noise silence_end: banana" = Except.error PyErr.valueError
    ∧ (skip_silence ["noise silence_end: banana"] initState).2 = some PyErr.valueError := by
  exact ⟨rfl, rfl⟩

/-- C4 (amended): a malformed log line that does not contain the token
"silence_end:" is treated as "no match" and raises nothing, but a line
containing the token with a missing third token raises IndexError and one
with an unparseable third token raises ValueError, and those are not
guarded. -/
theorem check_match_guard_spec (l l2 l3 t : String)
    (h1 : "silence_end:" ∉ pySplit l)
    (h2 : "silence_end:" ∈ pySplit l2) (h3 : (pySplit l2)[2]? = none)
    (h4 : "silence_end:" ∈ pySplit l3) (h5 : (pySplit l3)[2]? = some t)
    (h6 : pyFloat t = none) :
    check l = Except.ok none
    ∧ check l2 = Except.error PyErr.indexError
    ∧ check l3 = Except.error PyErr.valueError := by
  refine ⟨check_of_not_mem h1, ?_, ?_⟩
  · simp [check, h2, h3]
  · simp [check, h4, h5, h6]

/-- C4 witness: the amended statement at a token-free line, a line lacking
a third token, and a line whose third token is the unparseable "|". -/
theorem check_match_guard_witness :
    check "just some chatter" = Except.ok none
    ∧ check "silence_end:" = Except.error PyErr.indexError
    ∧ check "x silence_end: |" = Except.error PyErr.valueError :=
  check_match_guard_spec "just some chatter" "silence_end:" "x silence_end: |" "|"
    (by decide) (by decide) (by decide) (by decide) (by decide) (by decide)

/-- C5: for a log-line event stream none of whose lines carries the
"silence_end:" token, so that no match arrives before stream end and the
wait ends in the TypeError path, `skip_silence` neither hangs nor crashes:
it returns with speed restored to 1, the audio filter cleared, and the
playback position unchanged from the initial state. -/
theorem skip_silence_no_match_spec (lines : List String) (st : PlayerState)
    (h : ∀ l ∈ lines, "silence_end:" ∉ pySplit l) :
    skip_silence lines st
      = ({ st with loglevel := "error", af := "", speed := 1 }, none) := by
  have hw : waitForEvent lines = Except.ok none :=
    waitForEvent_of_all_none (fun l hl => check_of_not_mem (h l hl))
  rw [skip_silence, hw]
  rfl

/-- C5 witness: the statement at a concrete two-line stream with no
matching line. -/
theorem skip_silence_no_match_witness :
    skip_silence ["hello world", "nothing to see"] initState
      = ({ initState with loglevel := "error", af := "", speed := 1 }, none) :=
  skip_silence_no_match_spec ["hello world", "nothing to see"] initState (by decide)

/-- C6: `print_now_playing` on a data array with exactly one element
carrying game G and title T (and no started_at field) yields
"<channel> - [G] : T" without raising, and on a data array of any other
length yields "<channel> is not live". -/
theorem print_now_playing_spec (ch g t : String) (d : List (List (String × String)))
    (h : d.length ≠ 1) :
    print_now_playing ch [[("game_name", g), ("title", t)]]
      = Except.ok (ch ++ " - [" ++ g ++ "] : " ++ t)
    ∧ print_now_playing ch d = Except.ok (ch ++ " is not live") := by
  constructor
  · rfl
  · simp [print_now_playing, h]

/-- C6 witness: the statement at channel "chan", game "G", title "T", and
the empty data array. -/
theorem print_now_playing_witness :
    print_now_playing "chan" [[("game_name", "G"), ("title", "T")]]
      = Except.ok ("chan - [G] : T")
    ∧ print_now_playing "chan" [] = Except.ok ("chan is not live") := by
  have h := print_now_playing_spec "chan" "G" "T" [] (by decide)
  exact ⟨h.1.trans rfl, h.2⟩

/-- C7: `get_access_token` issues exactly one request (no retries); when
the token endpoint answers 200 it returns the parsed body, in particular
a non-empty access token whenever the endpoint supplies one (the 200
contract of the endpoint); and when the endpoint refuses the credentials
with an error status it fails with the HTTPError raised by
`raise_for_status` (the AuthError of the spec) and never returns a
token. -/
theorem get_access_token_spec (server : HttpRequest → HttpResponse) (cid cs : String) :
    (get_access_token server cid cs).1.length = 1
    ∧ ((server (tokenRequest cid cs)).status = 200 →
        (get_access_token server cid cs).2
          = Except.ok (server (tokenRequest cid cs)).body)
    ∧ (∀ tok, (server (tokenRequest cid cs)).status = 200 →
        List.lookup "access_token" (server (tokenRequest cid cs)).body = some tok →
        tok ≠ "" →
        ∃ body, (get_access_token server cid cs).2 = Except.ok body
          ∧ List.lookup "access_token" body = some tok ∧ tok ≠ "")
    ∧ (400 ≤ (server (tokenRequest cid cs)).status →
        (server (tokenRequest cid cs)).status ≤ 599 →
        ∃ e, (get_access_token server cid cs).2 = Except.error e
          ∧ e.response.status = (server (tokenRequest cid cs)).status
          ∧ ∀ body, (get_access_token server cid cs).2 ≠ Except.ok body) := by
  refine ⟨rfl, ?_, ?_, ?_⟩
  · intro h200
    have hmsg : http_error_msg (server (tokenRequest cid cs)) = none :=
      http_error_msg_eq_none (by omega)
    simp [get_access_token, raise_for_status, hmsg]
  · intro tok h200 hlk hne
    have hmsg : http_error_msg (server (tokenRequest cid cs)) = none :=
      http_error_msg_eq_none (by omega)
    exact ⟨(server (tokenRequest cid cs)).body,
      by simp [get_access_token, raise_for_status, hmsg], hlk, hne⟩
  · intro h4 h5
    obtain ⟨m, hmsg⟩ := http_error_msg_isSome h4 h5
    have herr : (get_access_token server cid cs).2
        = Except.error { message := m, response := server (tokenRequest cid cs) } := by
      simp [get_access_token, raise_for_status, hmsg]
    refine ⟨_, herr, rfl, fun body => ?_⟩
    rw [herr]
    simp

/-- C7 witness: the statement at the demonstration transport, once with
the accepted secret and once with a refused one. -/
theorem get_access_token_witness :
    (get_access_token demoTokenServer "id" "good").1.length = 1
    ∧ (get_access_token demoTokenServer "id" "good").2
        = Except.ok [("access_token", "abc123"), ("expires_in", "5011271"),
                     ("token_type", "bearer")]
    ∧ (∃ body, (get_access_token demoTokenServer "id" "good").2 = Except.ok body
        ∧ List.lookup "access_token" body = some "abc123" ∧ "abc123" ≠ "")
    ∧ (∃ e, (get_access_token demoTokenServer "id" "bad").2 = Except.error e
        ∧ e.response.status = 403
        ∧ ∀ body, (get_access_token demoTokenServer "id" "bad").2 ≠ Except.ok body) := by
  obtain ⟨h1, h2, h3, _⟩ := get_access_token_spec demoTokenServer "id" "good"
  obtain ⟨_, _, _, g4⟩ := get_access_token_spec demoTokenServer "id" "bad"
  refine ⟨h1, (h2 rfl).trans rfl, h3 "abc123" rfl rfl (by decide), ?_⟩
  obtain ⟨e, he, hs, hnb⟩ := g4 (by decide) (by decide)
  refine ⟨e, he, ?_, hnb⟩
  rw [hs]
  rfl

/-- C8 counterexample: a 404 metadata response whose JSON body carries a
"message" field produces an HTTPError whose message is the generic
requests-formatted string from status, reason and url, not the message
field from the body. -/
theorem api_request_message_cex :
    errMessage (api_request offlineServer "cid" "tok"
        "https://api.twitch.tv/helix/streams" "user_login=chan")
      = some "404 Client Error: Not Found for url: https://api.twitch.tv/helix/streams?user_login=chan"
    ∧ errMessage (api_request offlineServer "cid" "tok"
        "https://api.twitch.tv/helix/streams" "user_login=chan")
      ≠ some "stream not found"
    ∧ errStatus (api_request offlineServer "cid" "tok"
        "https://api.twitch.tv/helix/streams" "user_login=chan") = some 404
    ∧ List.lookup "message"
        (offlineServer (apiRequestReq "cid" "tok"
          "https://api.twitch.tv/helix/streams" "user_login=chan")).body
      = some "stream not found" := by
  exact ⟨rfl, by decide, rfl, rfl⟩

/-- C8 (amended): for every metadata query receiving a 4xx or 5xx
response, `api_request` fails with the HTTPError raised by
`raise_for_status`: it carries the full response (hence the status), and
its message is the generic string built from status, reason phrase and
url; the response body's "message" field is never consulted. -/
theorem api_request_error_spec (server : HttpRequest → HttpResponse)
    (cid tok url query : String)
    (h4 : 400 ≤ (server (apiRequestReq cid tok url query)).status)
    (h5 : (server (apiRequestReq cid tok url query)).status ≤ 599) :
    ∃ e, api_request server cid tok url query = Except.error e
      ∧ e.response = server (apiRequestReq cid tok url query)
      ∧ http_error_msg (server (apiRequestReq cid tok url query)) = some e.message := by
  obtain ⟨m, hmsg⟩ := http_error_msg_isSome h4 h5
  refine ⟨{ message := m, response := server (apiRequestReq cid tok url query) },
    ?_, rfl, by rw [hmsg]⟩
  simp [api_request, raise_for_status, hmsg]

/-- C8 witness: the amended statement at the always-404 transport. -/
theorem api_request_error_witness :
    ∃ e, api_request offlineServer "cid2" "tok2"
          "https://api.twitch.tv/helix/users" "login=chan"
        = Except.error e
      ∧ e.response = offlineServer (apiRequestReq "cid2" "tok2"
          "https://api.twitch.tv/helix/users" "login=chan")
      ∧ http_error_msg (offlineServer (apiRequestReq "cid2" "tok2"
          "https://api.twitch.tv/helix/users" "login=chan")) = some e.message :=
  api_request_error_spec offlineServer "cid2" "tok2"
    "https://api.twitch.tv/helix/users" "login=chan" (by decide) (by decide)

/-- C9: the playback-position observer prints the elapsed seconds rendered
to exactly two decimals for a numeric value, and on the no-media-loaded
`None` value it prints nothing and lets no exception escape (the TypeError
from formatting `None` is caught and dropped). -/
theorem time_observer_spec (q : ℚ) :
    time_observer (some q) = (["Now playing at " ++ fmt2 q ++ "s"], none)
    ∧ time_observer none = (([] : List String), (none : Option PyErr))
    ∧ fmt2 q = fmt2Whole q ++ "." ++ fmt2Frac q
    ∧ (fmt2Frac q).length = 2 := by
  exact ⟨rfl, rfl, rfl, rfl⟩

/-- C10: if the lines before some line are clean non-matches and the
matcher raises any exception other than TypeError on that line (for
example the IndexError from a line carrying "silence_end:" with fewer than
three tokens), the exception escapes `skip_silence` and the restore
statements never run: the speed is left at the 100x multiplier and the
silencedetect audio filter is left attached. -/
theorem skip_silence_unguarded_exception_spec (pre : List String) (l : String)
    (rest : List String) (st : PlayerState) (e : PyErr)
    (hpre : ∀ l2 ∈ pre, check l2 = Except.ok none)
    (hl : check l = Except.error e) (he : e ≠ PyErr.typeError) :
    skip_silence (pre ++ l :: rest) st
      = ({ st with loglevel := "error", af := silenceFilter, speed := 100 }, some e) := by
  rw [skip_silence, waitForEvent_append_error rest hpre hl]
  simp [he]

/-- C10 witness: the statement at the single line "x silence_end:",
which carries the token but only two tokens in all, so the matcher raises
IndexError. -/
theorem skip_silence_unguarded_exception_witness :
    skip_silence ["x silence_end:"] initState
      = ({ initState with loglevel := "error", af := silenceFilter, speed := 100 },
          some PyErr.indexError) :=
  skip_silence_unguarded_exception_spec [] "x silence_end:" [] initState
    PyErr.indexError (by simp) rfl (by decide)

end StreamlinkCli
